import Mathlib

/-
Verification of the AI Dungeon Master web client (my-react-app/src/main.jsx).

The source holds two React components: the refactored `DungeonMasterApp`
(lines 202-333) and the original `SimpleDnDApp` (lines 376-609).  Each owns
three pieces of state — `messages` (the Conversation), `inputText` (the
pending input) and `isLoading` — and four async handlers that talk to the
backend over HTTP.

Shallow embedding: the client state is a record; every async handler becomes
a pure function from the state and the backend outcome (an `Except` value:
`.ok` for a 2xx response body, `.error msg` for a thrown `Error`, which
covers both non-2xx statuses and network failures — both paths `throw` in
the source) to the new state paired with the list of HTTP requests the
handler issued.  This big-step treatment is sound because while a request is
outstanding `isLoading` is true and every other entry point is a no-op, so
the async continuation of a handler never interleaves with another handler.
-/

namespace DnDClient

/-- Role of a chat message: the source uses the string literals
`'user'` and `'assistant'`. -/
inductive Role where
  | user
  | assistant
deriving DecidableEq, Repr

/-- A chat message `{ role, content }` as appended by both components. -/
structure Message where
  role : Role
  content : String
deriving DecidableEq, Repr

/-- The client state: `useState([])`, `useState('')`, `useState(false)`. -/
structure AppState where
  messages : List Message
  inputText : String
  isLoading : Bool
deriving DecidableEq, Repr

/-- An outbound HTTP request.  `message` mirrors `POST /api/message` with
body `{ input, campaign_name, initial }`; the `initial` field is an
`Option Bool` because `SimpleDnDApp` omits it from the payload of ordinary
sends while `DungeonMasterApp`'s `ApiService` always serialises it.
`reset` mirrors `POST /api/reset` with body `{ campaign_name }`. -/
inductive Request where
  | message (input : String) (campaignName : String) (initial : Option Bool)
  | reset (campaignName : String)
deriving DecidableEq, Repr

/-- `CAMPAIGN_NAME = 'web_campaign'` (main.jsx line 11). -/
def CAMPAIGN_NAME : String := "web_campaign"

/-- The fixed scene-setting prompt sent by both initialisers. -/
def initialPromptText : String :=
  "Start the adventure with a short, setting-focused intro."

/-- JavaScript truthiness of a nullable string (`metaCommand` is either
`null` or a string; `null` and `''` are falsy). -/
def jsTruthy : Option String → Bool
  | none => false
  | some s => !s.isEmpty

/-- JavaScript `m || alt` for a nullable string `m`. -/
def jsOrElse (m : Option String) (alt : String) : String :=
  match m with
  | none => alt
  | some s => if s.isEmpty then alt else s

/-- JavaScript `inputText.trim()`: drop leading and trailing whitespace
(whitespace per `Char.isWhitespace`), written over the character list so
it is kernel-computable. -/
def jsTrim (s : String) : String :=
  ⟨((s.data.dropWhile Char.isWhitespace).reverse.dropWhile Char.isWhitespace).reverse⟩

/-- The initial client state: empty Conversation, empty pending input,
not loading. -/
def initialState : AppState := ⟨[], "", false⟩

namespace DungeonMasterApp

/-- `appendMessage` (line 213): `setMessages(prev => [...prev, { role, content }])`. -/
def appendMessage (role : Role) (content : String) (msgs : List Message) : List Message :=
  msgs ++ [⟨role, content⟩]

/-- `showError` (line 220): appends an assistant message
`❌ ${context}: ${error.message}. Check your terminal!`. -/
def showError (context errMsg : String) (msgs : List Message) : List Message :=
  appendMessage Role.assistant
    ("❌ " ++ context ++ ": " ++ errMsg ++ ". Check your terminal!") msgs

/-- The request issued by `initializeAdventure`:
`ApiService.sendMessage(prompt, true)` serialises `initial: true`. -/
def initRequest : Request :=
  Request.message initialPromptText CAMPAIGN_NAME (some true)

/-- The first half of `initializeAdventure` (line 228): `setIsLoading(true)`
before the request is issued. -/
def initializeStart (s : AppState) : AppState := { s with isLoading := true }

/-- The continuation of `initializeAdventure` (lines 230-240): on success
`setMessages([{ role: 'assistant', content: data.response }])` replaces the
Conversation; on failure `showError('Initialization Error', error)` appends;
`finally` clears `isLoading`. -/
def initializeFinish (o : Except String String) (s : AppState) : AppState :=
  match o with
  | .ok r => { s with messages := [⟨Role.assistant, r⟩], isLoading := false }
  | .error e =>
      { s with messages := showError "Initialization Error" e s.messages,
               isLoading := false }

/-- `initializeAdventure` (lines 227-241) as one big step, given the
backend outcome `o`. -/
def initializeAdventure (o : Except String String) (s : AppState) :
    AppState × List Request :=
  (initializeFinish o (initializeStart s), [initRequest])

/-- `sendMessage` (lines 246-264).  `messageContent = metaCommand ||
inputText.trim()`; no-op when that is falsy or `isLoading`; otherwise
appends a user message, clears the pending input only when `metaCommand`
is falsy, sets `isLoading`, issues the request
(`ApiService.sendMessage(messageContent)` serialises `initial: false`),
appends the assistant response or the error message, and finally clears
`isLoading`. -/
def sendMessage (meta : Option String) (o : Except String String) (s : AppState) :
    AppState × List Request :=
  let messageContent := jsOrElse meta (jsTrim s.inputText)
  if messageContent.isEmpty || s.isLoading then (s, [])
  else
    let s1 : AppState :=
      { messages := appendMessage Role.user messageContent s.messages,
        inputText := if jsTruthy meta then s.inputText else "",
        isLoading := true }
    let req := Request.message messageContent CAMPAIGN_NAME (some false)
    match o with
    | .ok r =>
        ({ s1 with messages := appendMessage Role.assistant r s1.messages,
                   isLoading := false }, [req])
    | .error e =>
        ({ s1 with messages := showError "Error communicating with DM server" e s1.messages,
                   isLoading := false }, [req])

/-- `handleReset` (lines 269-287).  `confirmed` is the result of
`window.confirm`; on decline nothing happens.  On confirm: `setIsLoading(true)`,
replace the Conversation with the transient status message, call the reset
endpoint; on success clear the Conversation and the pending input and run
`initializeAdventure` (whose outcome is `io`); on failure append a
`Reset Error` message and clear `isLoading`. -/
def handleReset (confirmed : Bool) (ro : Except String Unit)
    (io : Except String String) (s : AppState) : AppState × List Request :=
  if !confirmed then (s, [])
  else
    let s1 : AppState :=
      { s with isLoading := true,
               messages := [⟨Role.assistant, "⚙️ Attempting to reset campaign..."⟩] }
    match ro with
    | .ok _ =>
        let s2 : AppState := { s1 with messages := [], inputText := "" }
        let p := initializeAdventure io s2
        (p.1, Request.reset CAMPAIGN_NAME :: p.2)
    | .error e =>
        ({ s1 with messages := showError "Reset Error" e s1.messages,
                   isLoading := false }, [Request.reset CAMPAIGN_NAME])

/-- `sendMetaCommand` (lines 292-294): `if (!isLoading) sendMessage(null, command)`. -/
def sendMetaCommand (command : String) (o : Except String String) (s : AppState) :
    AppState × List Request :=
  if !s.isLoading then sendMessage (some command) o s else (s, [])

end DungeonMasterApp

namespace SimpleDnDApp

/-- `sendInitialPrompt` (lines 429-454 of the original component):
`setIsLoading(true)`, issue the initial request (payload has
`initial: true`); on success `setMessages([{assistant, data.response}])`;
on failure `setMessages([{assistant, error}])` — note the original
REPLACES the Conversation on failure, it does not append; `finally`
clears `isLoading`. -/
def sendInitialPrompt (o : Except String String) (s : AppState) :
    AppState × List Request :=
  let req := Request.message initialPromptText CAMPAIGN_NAME (some true)
  match o with
  | .ok r => ({ s with messages := [⟨Role.assistant, r⟩], isLoading := false }, [req])
  | .error e =>
      let m : Message :=
        ⟨Role.assistant, "❌ Initialization Error: " ++ e ++ ". Check your terminal!"⟩
      ({ s with messages := [m], isLoading := false }, [req])

/-- `sendMessage` of the original component (lines 457-496): same guard
`!commandToSend || isLoading`; appends the user message via the snapshot
`[...messages, userMessage]` (equal to an append, as it is the first
mutation of the handler); clears the input only for non-meta sends; the
ordinary payload `{ input, campaign_name }` omits the `initial` field. -/
def sendMessage (meta : Option String) (o : Except String String) (s : AppState) :
    AppState × List Request :=
  let commandToSend := jsOrElse meta (jsTrim s.inputText)
  if commandToSend.isEmpty || s.isLoading then (s, [])
  else
    let newMessages := s.messages ++ [⟨Role.user, commandToSend⟩]
    let s1 : AppState :=
      { messages := newMessages,
        inputText := if jsTruthy meta then s.inputText else "",
        isLoading := true }
    let req := Request.message commandToSend CAMPAIGN_NAME none
    match o with
    | .ok r =>
        ({ s1 with messages := s1.messages ++ [⟨Role.assistant, r⟩],
                   isLoading := false }, [req])
    | .error e =>
        let m : Message :=
          ⟨Role.assistant,
           "❌ Error communicating with DM server: " ++ e ++ ". Check your terminal!"⟩
        ({ s1 with messages := s1.messages ++ [m], isLoading := false }, [req])

/-- `handleReset` of the original component (lines 392-425): identical
structure to the refactored one, with the error message inlined. -/
def handleReset (confirmed : Bool) (ro : Except String Unit)
    (io : Except String String) (s : AppState) : AppState × List Request :=
  if !confirmed then (s, [])
  else
    let s1 : AppState :=
      { s with isLoading := true,
               messages := [⟨Role.assistant, "⚙️ Attempting to reset campaign..."⟩] }
    match ro with
    | .ok _ =>
        let s2 : AppState := { s1 with messages := [], inputText := "" }
        let p := sendInitialPrompt io s2
        (p.1, Request.reset CAMPAIGN_NAME :: p.2)
    | .error e =>
        let m : Message :=
          ⟨Role.assistant, "❌ Reset Error: " ++ e ++ ". Check your terminal!"⟩
        ({ s1 with messages := s1.messages ++ [m], isLoading := false },
         [Request.reset CAMPAIGN_NAME])

/-- `sendMetaCommand` of the original component (lines 499-502):
`if (isLoading) return; sendMessage(null, command)`. -/
def sendMetaCommand (command : String) (o : Except String String) (s : AppState) :
    AppState × List Request :=
  if s.isLoading then (s, []) else sendMessage (some command) o s

end SimpleDnDApp

/-- The two meta-command buttons wired in both components. -/
inductive MetaCommand where
  | summary
  | status
deriving DecidableEq, Repr

/-- The command string each button passes to `sendMetaCommand`. -/
def MetaCommand.text : MetaCommand → String
  | .summary => "summary"
  | .status => "status"

/-- A user event together with the backend outcome(s) its handler would
observe.  `formSubmit` is submission of the chat form; `metaClick` a click
on the Summary or Status button; `resetClick` a click on the Reset button,
carrying the `window.confirm` answer, the reset outcome and (used only when
both succeed) the outcome of the follow-up initial request; `mount` the
one-shot `useEffect`; `typeInput` typing into the text field
(`onChange={(e) => setInputText(e.target.value)}`). -/
inductive Event where
  | formSubmit (o : Except String String)
  | metaClick (c : MetaCommand) (o : Except String String)
  | resetClick (confirmed : Bool) (ro : Except String Unit) (io : Except String String)
  | mount (io : Except String String)
  | typeInput (t : String)
deriving Repr

/-- One event step of the refactored `DungeonMasterApp`.  The meta and
reset buttons are rendered with `disabled={isLoading}` (MetaButtons,
lines 146-172 / 318-323) and the text field with `disabled={isLoading}`
(line 184), so while loading those DOM elements fire no events: the step
is the identity there.  The mount effect itself guards on
`messages.length === 0 && !isLoading` (line 298). -/
def DungeonMasterApp.step (e : Event) (s : AppState) : AppState × List Request :=
  match e with
  | .formSubmit o => DungeonMasterApp.sendMessage none o s
  | .metaClick c o =>
      if s.isLoading then (s, []) else DungeonMasterApp.sendMetaCommand c.text o s
  | .resetClick confirmed ro io =>
      if s.isLoading then (s, []) else DungeonMasterApp.handleReset confirmed ro io s
  | .mount io =>
      if s.messages.isEmpty && !s.isLoading then DungeonMasterApp.initializeAdventure io s
      else (s, [])
  | .typeInput t =>
      if s.isLoading then (s, []) else ({ s with inputText := t }, [])

/-- One event step of the original `SimpleDnDApp`.  Its buttons and text
field carry the same `disabled={isLoading}` attributes (lines 536, 552,
571, 596) and its mount effect the same guard (line 386). -/
def SimpleDnDApp.step (e : Event) (s : AppState) : AppState × List Request :=
  match e with
  | .formSubmit o => SimpleDnDApp.sendMessage none o s
  | .metaClick c o =>
      if s.isLoading then (s, []) else SimpleDnDApp.sendMetaCommand c.text o s
  | .resetClick confirmed ro io =>
      if s.isLoading then (s, []) else SimpleDnDApp.handleReset confirmed ro io s
  | .mount io =>
      if s.messages.isEmpty && !s.isLoading then SimpleDnDApp.sendInitialPrompt io s
      else (s, [])
  | .typeInput t =>
      if s.isLoading then (s, []) else ({ s with inputText := t }, [])

/-- Run the refactored app over a sequence of events, tracking only the
state. -/
def DungeonMasterApp.run (events : List Event) (s : AppState) : AppState :=
  events.foldl (fun st e => (DungeonMasterApp.step e st).1) s

/-- Run the original app over a sequence of events, tracking only the
state. -/
def SimpleDnDApp.run (events : List Event) (s : AppState) : AppState :=
  events.foldl (fun st e => (SimpleDnDApp.step e st).1) s

/-- The error text built by `showError` with the communication context is
one flat literal. -/
theorem errlit1 : ("❌ " ++ "Error communicating with DM server" ++ ": " : String)
    = "❌ Error communicating with DM server: " := rfl

/-- The error text built by `showError` with the initialization context is
one flat literal. -/
theorem initlit : ("❌ " ++ "Initialization Error" ++ ": " : String)
    = "❌ Initialization Error: " := rfl

/-- The error text built by `showError` with the reset context is one flat
literal. -/
theorem resetlit : ("❌ " ++ "Reset Error" ++ ": " : String)
    = "❌ Reset Error: " := rfl

/-- C1: from a state that is not loading, with non-whitespace pending
input, a submit whose request succeeds appends exactly the user message
with the trimmed input followed by the assistant message with the response,
leaves every previously appended message unchanged, and ends not
loading (with the pending input cleared). -/
theorem submit_success_appends_user_then_assistant (s : AppState) (r : String)
    (h1 : s.isLoading = false) (h2 : jsTrim s.inputText ≠ "") :
    (DungeonMasterApp.sendMessage none (Except.ok r) s).1.messages
      = s.messages ++ [⟨Role.user, jsTrim s.inputText⟩, ⟨Role.assistant, r⟩]
    ∧ (DungeonMasterApp.sendMessage none (Except.ok r) s).1.isLoading = false
    ∧ (DungeonMasterApp.sendMessage none (Except.ok r) s).1.inputText = "" := by
  unfold DungeonMasterApp.sendMessage
  simp [jsOrElse, jsTruthy, h1, h2, String.isEmpty_iff,
        DungeonMasterApp.appendMessage]

/-- C1 witness: a concrete successful submission. -/
theorem submit_success_appends_user_then_assistant_witness :
    (DungeonMasterApp.sendMessage none (Except.ok "resp")
        ⟨[], "Attack the goblin", false⟩).1.messages
      = [⟨Role.user, "Attack the goblin"⟩, ⟨Role.assistant, "resp"⟩] := by
  have h := submit_success_appends_user_then_assistant
      ⟨[], "Attack the goblin", false⟩ "resp" rfl (by decide)
  exact h.1.trans (by decide)

/-- C2: a submit while loading, or an ordinary (non-meta) submit of
empty or whitespace-only input, leaves the whole state unchanged and
issues no request. -/
theorem submit_blocked_or_blank_is_noop (meta : Option String)
    (o : Except String String) (s : AppState)
    (h : s.isLoading = true ∨ (meta = none ∧ jsTrim s.inputText = "")) :
    DungeonMasterApp.sendMessage meta o s = (s, []) := by
  unfold DungeonMasterApp.sendMessage
  rcases h with h | ⟨hm, h⟩
  · simp [h]
  · subst hm; simp [jsOrElse, h, String.isEmpty_iff]

/-- C2 witness: a concrete whitespace-only submission is a no-op. -/
theorem submit_blocked_or_blank_is_noop_witness :
    DungeonMasterApp.sendMessage none (Except.ok "resp") ⟨[], "   ", false⟩
      = (⟨[], "   ", false⟩, []) :=
  submit_blocked_or_blank_is_noop none (Except.ok "resp") ⟨[], "   ", false⟩
    (Or.inr ⟨rfl, by decide⟩)

/-- C3: a submit whose request fails appends, beyond the user message
recorded at submission, exactly one assistant message carrying the ❌ error
marker; afterwards `isLoading` is false, and exactly one request was
issued (no retry). -/
theorem submit_failure_appends_single_error (meta : Option String)
    (s : AppState) (e : String)
    (h1 : s.isLoading = false) (h2 : jsOrElse meta (jsTrim s.inputText) ≠ "") :
    (DungeonMasterApp.sendMessage meta (Except.error e) s).1.messages
      = s.messages ++ [⟨Role.user, jsOrElse meta (jsTrim s.inputText)⟩,
          ⟨Role.assistant,
           "❌ Error communicating with DM server: " ++ e ++ ". Check your terminal!"⟩]
    ∧ (DungeonMasterApp.sendMessage meta (Except.error e) s).1.isLoading = false
    ∧ (DungeonMasterApp.sendMessage meta (Except.error e) s).2.length = 1 := by
  unfold DungeonMasterApp.sendMessage
  simp [h1, h2, String.isEmpty_iff,
        DungeonMasterApp.appendMessage, DungeonMasterApp.showError, errlit1]

/-- C3 witness: a concrete failed submission. -/
theorem submit_failure_appends_single_error_witness :
    (DungeonMasterApp.sendMessage none (Except.error "boom")
        ⟨[], "hi", false⟩).1.messages
      = [⟨Role.user, "hi"⟩,
         ⟨Role.assistant,
          "❌ Error communicating with DM server: boom. Check your terminal!"⟩]
    ∧ (DungeonMasterApp.sendMessage none (Except.error "boom")
        ⟨[], "hi", false⟩).2.length = 1 := by
  have h := submit_failure_appends_single_error none ⟨[], "hi", false⟩ "boom"
      rfl (by decide)
  exact ⟨h.1.trans (by decide), h.2.2⟩

/-- C4 counterexample: from a non-empty starting Conversation, a failed
`initializeAdventure` does NOT replace the Conversation with exactly one
message — it appends the error message, leaving two messages. -/
theorem initialize_failure_appends_instead_of_replacing :
    ((DungeonMasterApp.initializeAdventure (Except.error "boom")
        ⟨[⟨Role.assistant, "old"⟩], "", false⟩).1.messages.length = 2)
    ∧ ¬ ((DungeonMasterApp.initializeAdventure (Except.error "boom")
        ⟨[⟨Role.assistant, "old"⟩], "", false⟩).1.messages.length = 1) := by
  constructor
  · rfl
  · decide

/-- C4 amended: `initializeAdventure` issues the single initial request
with the fixed scene-setting prompt and initial=true; `isLoading` is set
before the call and is false after it in both outcomes; on success the
Conversation is replaced by exactly the one assistant response message;
on failure the assistant error message is APPENDED to the starting
Conversation (which amounts to a replacement exactly when the starting
Conversation is empty, as at both call sites). -/
theorem initialize_contract_amended (o : Except String String) (s : AppState) :
    (DungeonMasterApp.initializeAdventure o s).2
      = [Request.message initialPromptText CAMPAIGN_NAME (some true)]
    ∧ (DungeonMasterApp.initializeStart s).isLoading = true
    ∧ (DungeonMasterApp.initializeAdventure o s).1.isLoading = false
    ∧ (∀ r, o = Except.ok r →
        (DungeonMasterApp.initializeAdventure o s).1.messages = [⟨Role.assistant, r⟩])
    ∧ (∀ e, o = Except.error e →
        (DungeonMasterApp.initializeAdventure o s).1.messages
          = s.messages ++ [⟨Role.assistant,
              "❌ Initialization Error: " ++ e ++ ". Check your terminal!"⟩]) := by
  refine ⟨rfl, rfl, ?_, ?_, ?_⟩
  · cases o <;> rfl
  · rintro r rfl; rfl
  · rintro e rfl
    simp [DungeonMasterApp.initializeAdventure, DungeonMasterApp.initializeFinish,
          DungeonMasterApp.initializeStart, DungeonMasterApp.showError,
          DungeonMasterApp.appendMessage, initlit]

/-- C4 amended witness: the failure clause evaluated at a concrete
non-empty starting Conversation. -/
theorem initialize_contract_amended_witness :
    (DungeonMasterApp.initializeAdventure (Except.error "boom")
        ⟨[⟨Role.assistant, "old"⟩], "", false⟩).1.messages
      = [⟨Role.assistant, "old"⟩,
         ⟨Role.assistant, "❌ Initialization Error: boom. Check your terminal!"⟩]
    ∧ (DungeonMasterApp.initializeAdventure (Except.error "boom")
        ⟨[⟨Role.assistant, "old"⟩], "", false⟩).1.isLoading = false := by
  have h := initialize_contract_amended (Except.error "boom")
      ⟨[⟨Role.assistant, "old"⟩], "", false⟩
  exact ⟨(h.2.2.2.2 "boom" rfl).trans (by decide), h.2.2.1⟩

/-- C5 counterexample: submitting the meta-command summary while idle DOES
append a user message carrying the command text, contradicting the claim
that no user message is appended for meta-commands. -/
theorem meta_command_appends_user_message :
    (DungeonMasterApp.sendMetaCommand "summary" (Except.ok "recap")
        initialState).1.messages
      = [⟨Role.user, "summary"⟩, ⟨Role.assistant, "recap"⟩]
    ∧ ⟨Role.user, "summary"⟩
        ∈ (DungeonMasterApp.sendMetaCommand "summary" (Except.ok "recap")
            initialState).1.messages := by
  refine ⟨rfl, ?_⟩
  decide

/-- C5 amended: a meta-command submitted while idle is sent through the
same path as ordinary text: it appends a user message carrying the command
text followed by the assistant response (or the error message on failure);
it differs from an ordinary submission only in leaving the pending input
untouched. -/
theorem meta_command_submit_amended (s : AppState) (c : MetaCommand)
    (h : s.isLoading = false) :
    (∀ r, (DungeonMasterApp.sendMetaCommand c.text (Except.ok r) s).1
      = ⟨s.messages ++ [⟨Role.user, c.text⟩, ⟨Role.assistant, r⟩], s.inputText, false⟩)
    ∧ (∀ e, (DungeonMasterApp.sendMetaCommand c.text (Except.error e) s).1
      = ⟨s.messages ++ [⟨Role.user, c.text⟩,
           ⟨Role.assistant,
            "❌ Error communicating with DM server: " ++ e ++ ". Check your terminal!"⟩],
         s.inputText, false⟩) := by
  constructor
  · intro r
    unfold DungeonMasterApp.sendMetaCommand DungeonMasterApp.sendMessage
    cases c <;>
      simp [jsOrElse, jsTruthy, h, String.isEmpty_iff, MetaCommand.text,
            DungeonMasterApp.appendMessage]
  · intro e
    unfold DungeonMasterApp.sendMetaCommand DungeonMasterApp.sendMessage
    cases c <;>
      simp [jsOrElse, jsTruthy, h, String.isEmpty_iff, MetaCommand.text,
            DungeonMasterApp.appendMessage, DungeonMasterApp.showError, errlit1]

/-- C5 amended witness: a concrete successful summary meta-command. -/
theorem meta_command_submit_amended_witness :
    (DungeonMasterApp.sendMetaCommand MetaCommand.summary.text (Except.ok "recap")
        ⟨[], "typed", false⟩).1
      = ⟨[⟨Role.user, "summary"⟩, ⟨Role.assistant, "recap"⟩], "typed", false⟩ := by
  have h := meta_command_submit_amended ⟨[], "typed", false⟩ MetaCommand.summary rfl
  exact (h.1 "recap").trans (by decide)

/-- C6: a confirmed reset whose backend call succeeds leaves the state
exactly equal to the result of re-running the initializer from the cleared
state: the pending input is empty and the Conversation holds exactly one
assistant message (the new intro, or the initialization error). -/
theorem reset_confirmed_success_reinitializes (s : AppState)
    (io : Except String String) :
    (DungeonMasterApp.handleReset true (Except.ok ()) io s).1
      = (DungeonMasterApp.initializeAdventure io ⟨[], "", true⟩).1
    ∧ (DungeonMasterApp.handleReset true (Except.ok ()) io s).1.inputText = ""
    ∧ (DungeonMasterApp.handleReset true (Except.ok ()) io s).1.messages.length = 1
    ∧ ((DungeonMasterApp.handleReset true (Except.ok ()) io s).1.messages.all
        (fun m => m.role == Role.assistant)) = true := by
  refine ⟨rfl, ?_, ?_, ?_⟩ <;> cases io <;> rfl

/-- C7: a reset whose confirmation dialog is declined leaves the whole
state unchanged and issues no request at all. -/
theorem reset_declined_is_noop (s : AppState) (ro : Except String Unit)
    (io : Except String String) :
    DungeonMasterApp.handleReset false ro io s = (s, []) := rfl

/-- C8: in any state with `isLoading` true, every event of the client
(form submit, meta-command click, reset click, mount, typing) leaves the
state unchanged and issues no request, so a second request can never be
started while one is outstanding. -/
theorem loading_blocks_all_requests (e : Event) (s : AppState)
    (h : s.isLoading = true) :
    DungeonMasterApp.step e s = (s, []) := by
  cases e <;>
    simp [DungeonMasterApp.step, DungeonMasterApp.sendMessage, h]

/-- C8 witness: a concrete submit fired while loading is dropped. -/
theorem loading_blocks_all_requests_witness :
    DungeonMasterApp.step (Event.formSubmit (Except.ok "resp")) ⟨[], "hi", true⟩
      = (⟨[], "hi", true⟩, []) :=
  loading_blocks_all_requests (Event.formSubmit (Except.ok "resp")) ⟨[], "hi", true⟩ rfl

/-- Pointwise: the refactored `sendMessage` and the original one produce
the same state for every argument. -/
theorem sendMessage_agree (meta : Option String) (o : Except String String)
    (s : AppState) :
    (DungeonMasterApp.sendMessage meta o s).1 = (SimpleDnDApp.sendMessage meta o s).1 := by
  unfold DungeonMasterApp.sendMessage SimpleDnDApp.sendMessage
  by_cases hc : ((jsOrElse meta (jsTrim s.inputText)).isEmpty || s.isLoading) = true
  · simp [hc]
  · cases o with
    | ok r => simp [hc, DungeonMasterApp.appendMessage]
    | error e =>
        simp [hc, DungeonMasterApp.appendMessage, DungeonMasterApp.showError, errlit1]

/-- Pointwise: the two initializers produce the same state whenever the
starting Conversation is empty — which holds at both call sites (mount
and post-reset). -/
theorem initialize_agree (io : Except String String) (s : AppState)
    (h : s.messages = []) :
    (DungeonMasterApp.initializeAdventure io s).1
      = (SimpleDnDApp.sendInitialPrompt io s).1 := by
  cases io with
  | ok r => rfl
  | error e =>
      simp [DungeonMasterApp.initializeAdventure, DungeonMasterApp.initializeFinish,
            DungeonMasterApp.initializeStart, SimpleDnDApp.sendInitialPrompt,
            DungeonMasterApp.showError, DungeonMasterApp.appendMessage, h, initlit]

/-- Pointwise: every event moves both components to the same state. -/
theorem step_agree (e : Event) (s : AppState) :
    (DungeonMasterApp.step e s).1 = (SimpleDnDApp.step e s).1 := by
  cases e with
  | formSubmit o => exact sendMessage_agree none o s
  | metaClick c o =>
      by_cases h : s.isLoading = true
      · simp [DungeonMasterApp.step, SimpleDnDApp.step, h]
      · simp only [Bool.not_eq_true] at h
        simp [DungeonMasterApp.step, SimpleDnDApp.step, h,
              DungeonMasterApp.sendMetaCommand, SimpleDnDApp.sendMetaCommand,
              sendMessage_agree]
  | resetClick confirmed ro io =>
      by_cases h : s.isLoading = true
      · simp [DungeonMasterApp.step, SimpleDnDApp.step, h]
      · simp only [Bool.not_eq_true] at h
        cases confirmed with
        | false =>
            simp [DungeonMasterApp.step, SimpleDnDApp.step, h,
                  DungeonMasterApp.handleReset, SimpleDnDApp.handleReset]
        | true =>
            cases ro with
            | ok u =>
                simp [DungeonMasterApp.step, SimpleDnDApp.step, h,
                      DungeonMasterApp.handleReset, SimpleDnDApp.handleReset]
                exact initialize_agree io _ rfl
            | error e =>
                simp [DungeonMasterApp.step, SimpleDnDApp.step, h,
                      DungeonMasterApp.handleReset, SimpleDnDApp.handleReset,
                      DungeonMasterApp.showError, DungeonMasterApp.appendMessage,
                      resetlit]
  | mount io =>
      by_cases h : (s.messages.isEmpty && !s.isLoading) = true
      · have hm : s.messages = [] := by
          have := (Bool.and_eq_true _ _).mp h
          exact List.isEmpty_iff.mp this.1
        simp only [DungeonMasterApp.step, SimpleDnDApp.step, h, if_pos]
        exact initialize_agree io s hm
      · simp [DungeonMasterApp.step, SimpleDnDApp.step, h]
  | typeInput t => by_cases h : s.isLoading = true <;>
      simp [DungeonMasterApp.step, SimpleDnDApp.step, h]

/-- Pointwise step agreement lifted to whole event sequences from any
common starting state. -/
theorem run_agree (events : List Event) :
    ∀ s : AppState, DungeonMasterApp.run events s = SimpleDnDApp.run events s := by
  induction events with
  | nil => intro s; rfl
  | cons e es ih =>
      intro s
      show DungeonMasterApp.run es (DungeonMasterApp.step e s).1
        = SimpleDnDApp.run es (SimpleDnDApp.step e s).1
      rw [step_agree]
      exact ih _

/-- C9: the refactored `DungeonMasterApp` and the original `SimpleDnDApp`
are behaviourally equivalent: for every sequence of user events with their
backend outcomes, both components reach the same Conversation, pending
input text and loading flag from the common initial state. -/
theorem apps_behaviourally_equivalent (events : List Event) :
    DungeonMasterApp.run events initialState
      = SimpleDnDApp.run events initialState :=
  run_agree events initialState

/-- C10: with the client idle and some pending input typed, a meta-command
submission leaves the pending input text exactly as it was, while an
ordinary text submission (when the trimmed input is non-empty) clears it. -/
theorem meta_command_preserves_pending_input (s : AppState) (c : MetaCommand)
    (o : Except String String)
    (h1 : s.isLoading = false) (_h2 : s.inputText ≠ "") :
    (DungeonMasterApp.sendMetaCommand c.text o s).1.inputText = s.inputText
    ∧ (jsTrim s.inputText ≠ "" →
        (DungeonMasterApp.sendMessage none o s).1.inputText = "") := by
  constructor
  · unfold DungeonMasterApp.sendMetaCommand DungeonMasterApp.sendMessage
    cases c <;> cases o <;>
      simp [jsOrElse, jsTruthy, h1, String.isEmpty_iff, MetaCommand.text]
  · intro h3
    unfold DungeonMasterApp.sendMessage
    cases o <;> simp [jsOrElse, jsTruthy, h1, h3, String.isEmpty_iff]

/-- C10 witness: a concrete summary click keeps the typed text, a concrete
ordinary submission clears it. -/
theorem meta_command_preserves_pending_input_witness :
    (DungeonMasterApp.sendMetaCommand MetaCommand.summary.text (Except.ok "resp")
        ⟨[], "typed", false⟩).1.inputText = "typed"
    ∧ (DungeonMasterApp.sendMessage none (Except.ok "resp")
        ⟨[], "typed", false⟩).1.inputText = "" := by
  have h := meta_command_preserves_pending_input ⟨[], "typed", false⟩
      MetaCommand.summary (Except.ok "resp") rfl (by decide)
  exact ⟨h.1, h.2 (by decide)⟩

end DnDClient
